import Mathlib

/-!
Shallow embedding of the Cognito-to-Firebase migration script
(import_users.py) and proofs about its migration worker, document
mapper and bulk deleters.

External collaborators (Firebase Auth, Firestore) are modelled as an
environment of deterministic oracles; each external call that the
script performs is also recorded in a call trace so that statements
about which calls happen can be made precise.  Python exceptions are
modelled with Except; Python string truthiness and str(None)
interpolation are modelled explicitly.
-/

namespace CognitoMigration

/-- One Cognito attribute pair, an entry of the record's association list. -/
structure CogAttr where
  Name : String
  Value : String
deriving DecidableEq

/-- A source user record (the schema of one entry of cognito_users.json). -/
structure CognitoUser where
  Username : String
  Attributes : List CogAttr
  UserCreateDate : String
  UserLastModifiedDate : String
  Enabled : Bool
  UserStatus : String
deriving DecidableEq

/-- A Firebase Auth user record; the script only ever reads its uid. -/
structure UserRecord where
  uid : String
deriving DecidableEq

/-- Python truthiness of an optional string: None and the empty string are falsy. -/
def py_truthy : Option String → Bool
  | none => false
  | some s => !(s == "")

/-- Python f-string interpolation of an optional string: None prints as the literal string None. -/
def py_fstr : Option String → String
  | none => "None"
  | some s => s

/-- Python str.lower, as character-wise lowering over the underlying list. -/
def strLower (s : String) : String :=
  ⟨s.data.map Char.toLower⟩

/-- Python str.strip: drop leading and trailing whitespace. -/
def py_strip (s : String) : String :=
  ⟨((s.data.dropWhile Char.isWhitespace).reverse.dropWhile Char.isWhitespace).reverse⟩

/-- Whether the second list is a prefix of the first. -/
def list_starts_with : List Char → List Char → Bool
  | _, [] => true
  | [], _ :: _ => false
  | c :: cs, p :: ps => c == p && list_starts_with cs ps

/-- Whether the second list occurs as a contiguous sublist of the first. -/
def list_contains_sub : List Char → List Char → Bool
  | [], pat => list_starts_with [] pat
  | c :: rest, pat => list_starts_with (c :: rest) pat || list_contains_sub rest pat

/-- Python substring containment: pat in s. -/
def str_contains_sub (s pat : String) : Bool :=
  list_contains_sub s.data pat.data

/-- get_attribute_value: first Value whose Name matches, else None (line 15). -/
def get_attribute_value (attributes : List CogAttr) (name : String) : Option String :=
  (attributes.find? (fun attr => attr.Name == name)).map (fun attr => attr.Value)

/-- A Firestore field value as the mapper produces it: null, a string, or a bool. -/
inductive FVal where
  | null : FVal
  | str : String → FVal
  | bool : Bool → FVal
deriving DecidableEq

/-- An optional string attribute as a Firestore value: absent becomes null. -/
def optStr : Option String → FVal
  | none => FVal.null
  | some s => FVal.str s

/-- The nested Attributes dict built by create_firestore_user_data (lines 26-34),
as an association list in the dict literal's key order. -/
def fire_attributes_fields (attributes : List CogAttr) : List (String × FVal) :=
  [("email", optStr (get_attribute_value attributes "email")),
   ("email_verified", FVal.bool (get_attribute_value attributes "email_verified" == some "true")),
   ("phone_number", optStr (get_attribute_value attributes "phone_number")),
   ("phone_number_verified",
    FVal.bool (get_attribute_value attributes "phone_number_verified" == some "true")),
   ("family_name", optStr (get_attribute_value attributes "family_name")),
   ("given_name", optStr (get_attribute_value attributes "given_name")),
   ("sub", optStr (get_attribute_value attributes "sub"))]

/-- The Firestore document built by create_firestore_user_data (lines 24-41). -/
structure FirestoreDoc where
  Username : String
  Attributes : List (String × FVal)
  UserCreateDate : String
  UserLastModifiedDate : String
  Enabled : Bool
  UserStatus : String
  firebase_uid : String
deriving DecidableEq

/-- create_firestore_user_data (lines 19-41). -/
def create_firestore_user_data (user_data : CognitoUser) (user_record : UserRecord) :
    FirestoreDoc :=
  { Username := user_data.Username
    Attributes := fire_attributes_fields user_data.Attributes
    UserCreateDate := user_data.UserCreateDate
    UserLastModifiedDate := user_data.UserLastModifiedDate
    Enabled := user_data.Enabled
    UserStatus := user_data.UserStatus
    firebase_uid := user_record.uid }

/-- The kwargs dict passed to auth.create_user after the None filter (lines 60-74).
A none in display_name or phone_number means the key is absent from the dict. -/
structure UserKwargs where
  uid : String
  email : String
  password : String
  email_verified : Bool
  display_name : Option String
  disabled : Bool
  phone_number : Option String
deriving DecidableEq

/-- Build user_kwargs exactly as migrate_user does (lines 47-74): extract the
attributes, compute the email_verified flag with a truthiness guard and a
lowercase compare, build display_name by f-string interpolation plus strip
when either name is truthy, add phone_number only when truthy, and drop None
values. -/
def request_kwargs (user_data : CognitoUser) (email : String) : UserKwargs :=
  let attributes := user_data.Attributes
  let email_verified := get_attribute_value attributes "email_verified"
  let phone_number := get_attribute_value attributes "phone_number"
  let given_name := get_attribute_value attributes "given_name"
  let family_name := get_attribute_value attributes "family_name"
  { uid := user_data.Username
    email := email
    password := "Default@123"
    email_verified :=
      if py_truthy email_verified then strLower (py_fstr email_verified) == "true" else false
    display_name :=
      if py_truthy given_name || py_truthy family_name then
        some (py_strip (py_fstr given_name ++ " " ++ py_fstr family_name))
      else none
    disabled := !user_data.Enabled
    phone_number := if py_truthy phone_number then phone_number else none }

/-- An exception raised by an external call, carrying its message string. -/
structure ExcErr where
  msg : String
deriving DecidableEq

/-- The phone-retry condition of line 86: the message mentions an invalid or
already-used phone number. -/
def is_phone_issue (e : ExcErr) : Bool :=
  str_contains_sub e.msg "INVALID_PHONE_NUMBER" || str_contains_sub e.msg "PHONE_NUMBER_EXISTS"

/-- Outcome of auth.get_user_by_email: found, the expected UserNotFoundError,
or some other exception. -/
inductive LookupResult where
  | found : UserRecord → LookupResult
  | notFound : LookupResult
  | err : ExcErr → LookupResult
deriving DecidableEq

/-- One identity listed by auth.list_users. -/
structure AuthUser where
  uid : String
  email : String
deriving DecidableEq

/-- One external call made by the script, as recorded in the trace. -/
inductive ExtCall where
  | getUserByEmail : String → ExtCall
  | createUser : UserKwargs → ExtCall
  | genResetLink : String → ExtCall
  | setDocument : String → FirestoreDoc → Bool → ExtCall
deriving DecidableEq

/-- The environment of external collaborators: deterministic oracles for the
Firebase Auth and Firestore operations the script consumes, and the
pagination structure auth.list_users exposes. -/
structure Env where
  get_user_by_email : String → LookupResult
  create_user : UserKwargs → Except ExcErr UserRecord
  generate_password_reset_link : String → Except ExcErr String
  set_document : String → FirestoreDoc → Bool → Except ExcErr Unit
  delete_user : String → Except ExcErr Unit
  auth_pages : List (List AuthUser)
  stream_docs : Except ExcErr (List String)
  delete_document : String → Except ExcErr Unit

/-- Lines 76-98: look the identity up by email; on UserNotFoundError create it,
retrying once without the phone field when the failure is phone-related and
re-raising otherwise; after a successful creation generate a password reset
link.  Returns the identity or the propagated exception, with the trace of
external calls made. -/
def resolve_identity (env : Env) (email : String) (user_kwargs : UserKwargs) :
    Except ExcErr UserRecord × List ExtCall :=
  match env.get_user_by_email email with
  | LookupResult.found u => (Except.ok u, [ExtCall.getUserByEmail email])
  | LookupResult.err e => (Except.error e, [ExtCall.getUserByEmail email])
  | LookupResult.notFound =>
    match env.create_user user_kwargs with
    | Except.ok u =>
      match env.generate_password_reset_link email with
      | Except.ok _ =>
        (Except.ok u,
         [ExtCall.getUserByEmail email, ExtCall.createUser user_kwargs,
          ExtCall.genResetLink email])
      | Except.error e =>
        (Except.error e,
         [ExtCall.getUserByEmail email, ExtCall.createUser user_kwargs,
          ExtCall.genResetLink email])
    | Except.error e =>
      if is_phone_issue e then
        match env.create_user { user_kwargs with phone_number := none } with
        | Except.ok u =>
          match env.generate_password_reset_link email with
          | Except.ok _ =>
            (Except.ok u,
             [ExtCall.getUserByEmail email, ExtCall.createUser user_kwargs,
              ExtCall.createUser { user_kwargs with phone_number := none },
              ExtCall.genResetLink email])
          | Except.error e2 =>
            (Except.error e2,
             [ExtCall.getUserByEmail email, ExtCall.createUser user_kwargs,
              ExtCall.createUser { user_kwargs with phone_number := none },
              ExtCall.genResetLink email])
        | Except.error e2 =>
          (Except.error e2,
           [ExtCall.getUserByEmail email, ExtCall.createUser user_kwargs,
            ExtCall.createUser { user_kwargs with phone_number := none }])
      else
        (Except.error e, [ExtCall.getUserByEmail email, ExtCall.createUser user_kwargs])

/-- The body of the try block of migrate_user (lines 58-109): build the kwargs,
resolve the identity, map the record and write the document with merge=True,
returning the identity; any exception propagates. -/
def migrate_user_try (env : Env) (user_data : CognitoUser) (email : String) :
    Except ExcErr UserRecord × List ExtCall :=
  let user_kwargs := request_kwargs user_data email
  match resolve_identity env email user_kwargs with
  | (Except.error e, calls) => (Except.error e, calls)
  | (Except.ok user_record, calls) =>
    let firestore_data := create_firestore_user_data user_data user_record
    match env.set_document user_record.uid firestore_data true with
    | Except.ok _ =>
      (Except.ok user_record, calls ++ [ExtCall.setDocument user_record.uid firestore_data true])
    | Except.error e =>
      (Except.error e, calls ++ [ExtCall.setDocument user_record.uid firestore_data true])

/-- migrate_user (lines 43-113): skip with a warning when the email attribute
is absent or empty, and otherwise run the try body, converting any exception
it raises into a None return.  The second component is the trace of external
calls. -/
def migrate_user (env : Env) (user_data : CognitoUser) : Option UserRecord × List ExtCall :=
  match get_attribute_value user_data.Attributes "email" with
  | none => (none, [])
  | some em =>
    if em = "" then (none, [])
    else
      match migrate_user_try env user_data em with
      | (Except.ok u, calls) => (some u, calls)
      | (Except.error _, calls) => (none, calls)

/-- The migration statistics main accumulates (lines 216-228). -/
structure Stats where
  total : Nat
  success : Nat
  failed : Nat
deriving DecidableEq

/-- The per-record loop of main (lines 223-228): a truthy (some) result counts
as success, a None result as failed. -/
def run_migration_loop (env : Env) : List CognitoUser → Nat → Nat → Nat × Nat
  | [], s, f => (s, f)
  | user :: rest, s, f =>
    match (migrate_user env user).1 with
    | some _ => run_migration_loop env rest (s + 1) f
    | none => run_migration_loop env rest s (f + 1)

/-- The migrate branch of main (lines 216-234): total is the record count,
success and failed come from the loop. -/
def run_migration (env : Env) (users : List CognitoUser) : Stats :=
  let r := run_migration_loop env users 0 0
  { total := users.length, success := r.1, failed := r.2 }

/-- delete_firestore_users (lines 115-150): stream the collection, delete each
document independently, counting successes and failures; a failure obtaining
the stream propagates. -/
def delete_firestore_users (env : Env) : Except ExcErr (Nat × Nat) :=
  match env.stream_docs with
  | Except.error e => Except.error e
  | Except.ok docs =>
    Except.ok (docs.foldl
      (fun acc d =>
        match env.delete_document d with
        | Except.ok _ => (acc.1 + 1, acc.2)
        | Except.error _ => (acc.1, acc.2 + 1))
      (0, 0))

/-- The inner loop of delete_auth_users over one page (lines 174-182): attempt
to delete each identity, counting per outcome; also records the uids attempted. -/
def delete_users_in_page (env : Env) : List AuthUser → Nat → Nat → (Nat × Nat) × List String
  | [], d, f => ((d, f), [])
  | u :: rest, d, f =>
    match env.delete_user u.uid with
    | Except.ok _ =>
      let r := delete_users_in_page env rest (d + 1) f
      (r.1, u.uid :: r.2)
    | Except.error _ =>
      let r := delete_users_in_page env rest d (f + 1)
      (r.1, u.uid :: r.2)

/-- The page loop of delete_auth_users (lines 172-185): process each page in
order, carrying the counters across pages. -/
def delete_auth_pages (env : Env) : List (List AuthUser) → Nat → Nat → (Nat × Nat) × List String
  | [], d, f => ((d, f), [])
  | page :: rest, d, f =>
    let r1 := delete_users_in_page env page d f
    let r2 := delete_auth_pages env rest r1.1.1 r1.1.2
    (r2.1, r1.2 ++ r2.2)

/-- delete_auth_users (lines 152-192): optionally cascade into the Firestore
deleter first (its tallies are only logged, never merged), then delete every
identity page by page and return the identity tallies.  The second component
is the list of uids for which a deletion was attempted. -/
def delete_auth_users (env : Env) (delete_firestore : Bool) :
    Except ExcErr (Nat × Nat) × List String :=
  if delete_firestore then
    match delete_firestore_users env with
    | Except.error e => (Except.error e, [])
    | Except.ok _ =>
      let r := delete_auth_pages env env.auth_pages 0 0
      (Except.ok r.1, r.2)
  else
    let r := delete_auth_pages env env.auth_pages 0 0
    (Except.ok r.1, r.2)

/-- Whether the environment deletes this identity without raising. -/
def del_ok (env : Env) (u : AuthUser) : Bool :=
  match env.delete_user u.uid with
  | Except.ok _ => true
  | Except.error _ => false

/-- The create-identity calls of a trace, in order, with their kwargs. -/
def create_calls (calls : List ExtCall) : List UserKwargs :=
  calls.filterMap (fun c =>
    match c with
    | ExtCall.createUser k => some k
    | _ => none)

/-- Modelled from the spec: the merge-write semantics of the external document
store, which is an external collaborator and not code under src.  Glossary,
Merge write: a write that overlays only the supplied fields onto any existing
document, leaving other existing fields untouched. -/
def merge_fields (old fresh : List (String × FVal)) : List (String × FVal) :=
  fresh ++ old.filter (fun kv => !(fresh.any (fun kv2 => kv2.1 == kv.1)))

/-- Dictionary access on an association list of document fields. -/
def lookupF (k : String) : List (String × FVal) → Option FVal
  | [] => none
  | (k1, v) :: rest => if k = k1 then some v else lookupF k rest

/-- The seven keys of the mapped document's Attributes object, in order. -/
def doc_attr_keys : List String :=
  ["email", "email_verified", "phone_number", "phone_number_verified",
   "family_name", "given_name", "sub"]

/-- The five string-valued attribute keys of the Attributes object. -/
def string_attr_keys : List String :=
  ["email", "phone_number", "family_name", "given_name", "sub"]

/-- A concrete Auth identity used by the concrete scenarios below. -/
def u1rec : UserRecord := { uid := "u1" }

/-- A benign environment: lookup always finds u1rec and every call succeeds. -/
def env_found : Env :=
  { get_user_by_email := fun _ => LookupResult.found u1rec
    create_user := fun _ => Except.ok u1rec
    generate_password_reset_link := fun _ => Except.ok "link"
    set_document := fun _ _ _ => Except.ok ()
    delete_user := fun _ => Except.ok ()
    auth_pages := []
    stream_docs := Except.ok []
    delete_document := fun _ => Except.ok () }

/-- The store-failure exception of the failing environment. -/
def errS : ExcErr := { msg := "store down" }

/-- env_found, except that every document write raises. -/
def env_fail : Env :=
  { env_found with set_document := fun _ _ _ => Except.error errS }

/-- A phone-related creation exception. -/
def errP : ExcErr := { msg := "INVALID_PHONE_NUMBER : TOO_SHORT" }

/-- An environment where the email is new and creation fails with a phone
issue exactly when the request carries a phone number. -/
def env_phone : Env :=
  { env_found with
    get_user_by_email := fun _ => LookupResult.notFound
    create_user := fun k =>
      match k.phone_number with
      | some _ => Except.error errP
      | none => Except.ok u1rec }

/-- An environment with three identities over two pages where deleting u2 raises. -/
def env_del : Env :=
  { env_found with
    auth_pages := [[{ uid := "u1", email := "a" }, { uid := "u2", email := "b" }],
                   [{ uid := "u3", email := "c" }]]
    delete_user := fun uid => if uid = "u2" then Except.error { msg := "boom" } else Except.ok () }

/-- A record with no attributes at all, hence no email. -/
def rec0 : CognitoUser :=
  { Username := "u0", Attributes := [], UserCreateDate := "2024-01-01",
    UserLastModifiedDate := "2024-01-02", Enabled := true, UserStatus := "CONFIRMED" }

/-- A record with only an email attribute. -/
def rec1 : CognitoUser :=
  { Username := "u1", Attributes := [{ Name := "email", Value := "a@x.com" }],
    UserCreateDate := "2024-01-01", UserLastModifiedDate := "2024-01-02",
    Enabled := true, UserStatus := "CONFIRMED" }

/-- A record whose email_verified attribute is the uppercase string TRUE. -/
def recTRUE : CognitoUser :=
  { Username := "u2", Attributes := [{ Name := "email", Value := "a@x.com" },
      { Name := "email_verified", Value := "TRUE" }],
    UserCreateDate := "2024-01-01", UserLastModifiedDate := "2024-01-02",
    Enabled := true, UserStatus := "CONFIRMED" }

/-- A record with a family name but no given name. -/
def recNoGiven : CognitoUser :=
  { Username := "u3", Attributes := [{ Name := "email", Value := "a@x.com" },
      { Name := "family_name", Value := "Smith" }],
    UserCreateDate := "2024-01-01", UserLastModifiedDate := "2024-01-02",
    Enabled := true, UserStatus := "CONFIRMED" }

/-- A record with an email and a phone number. -/
def rec_phone : CognitoUser :=
  { Username := "u4", Attributes := [{ Name := "email", Value := "p@x.com" },
      { Name := "phone_number", Value := "+15550100" }],
    UserCreateDate := "2024-01-01", UserLastModifiedDate := "2024-01-02",
    Enabled := true, UserStatus := "CONFIRMED" }

/-- C7: for every record whose email attribute is absent or empty, migrate_user
returns None with an empty call trace: no identity-platform or document-store
operation happens for such a record. -/
theorem migrate_user_no_email (env : Env) (user_data : CognitoUser)
    (h : get_attribute_value user_data.Attributes "email" = none ∨
         get_attribute_value user_data.Attributes "email" = some "") :
    migrate_user env user_data = (none, []) := by
  rcases h with h | h <;> simp [migrate_user, h]

theorem migrate_user_no_email_witness :
    migrate_user env_found rec0 = (none, []) :=
  migrate_user_no_email env_found rec0 (Or.inl rfl)

/-- C1 counterexample: on a batch holding exactly one record that lacks an
email attribute, run_migration yields total=1, success=0, failed=1, not the
claimed total=1, success=0, failed=0: main counts the None result of a
skipped record in the failed tally. -/
theorem migration_summary_skip_counterexample :
    get_attribute_value rec0.Attributes "email" = none ∧
    run_migration env_found [rec0] = { total := 1, success := 0, failed := 1 } ∧
    run_migration env_found [rec0] ≠ { total := 1, success := 0, failed := 0 } := by
  decide

/-- C1 amended: for a migration run over a source file containing exactly one
record that lacks an email attribute, the migration summary is total=1,
success=0, failed=1: the skipped record's None return is counted as failed. -/
theorem skip_counted_as_failed (env : Env) (user_data : CognitoUser)
    (h : get_attribute_value user_data.Attributes "email" = none) :
    run_migration env [user_data] = { total := 1, success := 0, failed := 1 } := by
  simp [run_migration, run_migration_loop, migrate_user, h]

theorem skip_counted_as_failed_witness :
    run_migration env_found [rec0] = { total := 1, success := 0, failed := 1 } :=
  skip_counted_as_failed env_found rec0 rfl

/-- C4: any exception the try body of migrate_user raises (identity lookup or
creation, reset-link generation, or the document write) is caught at the
worker boundary and converted into a None return: the caller never sees the
exception. -/
theorem migrate_user_catches (env : Env) (user_data : CognitoUser) (em : String)
    (e : ExcErr) (calls : List ExtCall)
    (h1 : get_attribute_value user_data.Attributes "email" = some em)
    (h2 : migrate_user_try env user_data em = (Except.error e, calls)) :
    (migrate_user env user_data).1 = none := by
  by_cases hem : em = ""
  · subst hem
    simp [migrate_user, h1]
  · simp [migrate_user, h1, hem, h2]

theorem migrate_user_catches_witness :
    (migrate_user env_fail rec1).1 = none :=
  migrate_user_catches env_fail rec1 "a@x.com" errS
    [ExtCall.getUserByEmail "a@x.com",
     ExtCall.setDocument "u1" (create_firestore_user_data rec1 u1rec) true]
    rfl rfl

/-- C2 counterexample: for a record whose email_verified attribute is the
string TRUE, the identity-creation request built by migrate_user carries
email_verified = true, while the claim says any value other than the exact
string true maps to false. -/
theorem email_verified_case_counterexample :
    get_attribute_value recTRUE.Attributes "email_verified" = some "TRUE" ∧
    (some "TRUE" : Option String) ≠ some "true" ∧
    (request_kwargs recTRUE "a@x.com").email_verified = true := by
  decide

/-- C2 amended: the email_verified field of the identity-creation request is
true exactly when the lowercased email_verified attribute value equals true
(so TRUE and True also map to true); an absent attribute, the empty string,
or any other value (such as 1) maps to false. -/
theorem request_email_verified_lower (user_data : CognitoUser) (email : String) :
    (request_kwargs user_data email).email_verified =
      (match get_attribute_value user_data.Attributes "email_verified" with
       | none => false
       | some s => strLower s == "true") := by
  cases h : get_attribute_value user_data.Attributes "email_verified" with
  | none => simp [request_kwargs, h, py_truthy]
  | some s =>
    by_cases hs : s = ""
    · subst hs
      simp [request_kwargs, h, py_truthy]
      decide
    · simp [request_kwargs, h, py_truthy, py_fstr, hs]

/-- C3: the code, not the claim, is wrong here: for a record with a family
name but no given name, the display_name placed in the creation request is
the string None Smith, because the f-string interpolates str(None); the
claim and spec say it should be the single present name Smith. -/
theorem display_name_none_interpolation :
    get_attribute_value recNoGiven.Attributes "given_name" = none ∧
    get_attribute_value recNoGiven.Attributes "family_name" = some "Smith" ∧
    (request_kwargs recNoGiven "a@x.com").display_name = some "None Smith" := by
  refine ⟨rfl, rfl, ?_⟩
  decide

/-- C9: in the mapped document's Attributes object, email_verified and
phone_number_verified are true exactly when the corresponding source
attribute string is exactly true; an absent attribute or any other string
yields false. -/
theorem mapper_verified_flags (user_data : CognitoUser) (u : UserRecord) :
    lookupF "email_verified" (create_firestore_user_data user_data u).Attributes =
      some (FVal.bool (get_attribute_value user_data.Attributes "email_verified" == some "true")) ∧
    lookupF "phone_number_verified" (create_firestore_user_data user_data u).Attributes =
      some (FVal.bool
        (get_attribute_value user_data.Attributes "phone_number_verified" == some "true")) := by
  exact ⟨rfl, rfl⟩

/-- C5: for a record whose email matches an existing identity, the trace is
exactly the lookup followed by one merge=true document write keyed by the
found identity's uid (so no create-identity and no reset-link call), and the
identity is returned whenever the write does not raise (a raising write is
converted to None at the worker boundary). -/
theorem migrate_user_existing (env : Env) (user_data : CognitoUser) (em : String) (u : UserRecord)
    (h1 : get_attribute_value user_data.Attributes "email" = some em)
    (h2 : em ≠ "")
    (h3 : env.get_user_by_email em = LookupResult.found u) :
    (migrate_user env user_data).2 =
      [ExtCall.getUserByEmail em,
       ExtCall.setDocument u.uid (create_firestore_user_data user_data u) true] ∧
    (migrate_user env user_data).1 =
      (match env.set_document u.uid (create_firestore_user_data user_data u) true with
       | Except.ok _ => some u
       | Except.error _ => none) := by
  cases h4 : env.set_document u.uid (create_firestore_user_data user_data u) true <;>
    simp [migrate_user, migrate_user_try, resolve_identity, h1, h2, h3, h4]

theorem migrate_user_existing_witness :
    (migrate_user env_found rec1).2 =
      [ExtCall.getUserByEmail "a@x.com",
       ExtCall.setDocument "u1" (create_firestore_user_data rec1 u1rec) true] ∧
    (migrate_user env_found rec1).1 = some u1rec := by
  have h := migrate_user_existing env_found rec1 "a@x.com" u1rec rfl (by decide) rfl
  exact ⟨h.1, h.2⟩

/-- C6: for a record with a new email, exactly one create-identity call is
made when creation succeeds or fails for a non-phone reason (the latter is
not retried, and the exception propagates to the worker boundary where it
becomes None); when creation fails with a phone-related condition exactly two
create-identity calls are made, the second with the phone_number field
removed. -/
theorem migrate_user_new_email_creates (env : Env) (user_data : CognitoUser) (em : String)
    (h1 : get_attribute_value user_data.Attributes "email" = some em)
    (h2 : em ≠ "")
    (h3 : env.get_user_by_email em = LookupResult.notFound) :
    (∀ u, env.create_user (request_kwargs user_data em) = Except.ok u →
      create_calls (migrate_user env user_data).2 = [request_kwargs user_data em]) ∧
    (∀ e, env.create_user (request_kwargs user_data em) = Except.error e →
      is_phone_issue e = false →
      create_calls (migrate_user env user_data).2 = [request_kwargs user_data em] ∧
      (migrate_user env user_data).1 = none) ∧
    (∀ e, env.create_user (request_kwargs user_data em) = Except.error e →
      is_phone_issue e = true →
      create_calls (migrate_user env user_data).2 =
        [request_kwargs user_data em,
         { request_kwargs user_data em with phone_number := none }]) := by
  refine ⟨?_, ?_, ?_⟩
  · intro u hc
    cases hr : env.generate_password_reset_link em with
    | ok link =>
      cases hs : env.set_document u.uid (create_firestore_user_data user_data u) true <;>
        simp [migrate_user, migrate_user_try, resolve_identity, create_calls,
          h1, h2, h3, hc, hr, hs]
    | error e =>
      simp [migrate_user, migrate_user_try, resolve_identity, create_calls,
        h1, h2, h3, hc, hr]
  · intro e hc hp
    simp [migrate_user, migrate_user_try, resolve_identity, create_calls,
      h1, h2, h3, hc, hp]
  · intro e hc hp
    cases hc2 : env.create_user { request_kwargs user_data em with phone_number := none } with
    | ok u =>
      cases hr : env.generate_password_reset_link em with
      | ok link =>
        cases hs : env.set_document u.uid (create_firestore_user_data user_data u) true <;>
          simp [migrate_user, migrate_user_try, resolve_identity, create_calls,
            h1, h2, h3, hc, hp, hc2, hr, hs]
      | error e2 =>
        simp [migrate_user, migrate_user_try, resolve_identity, create_calls,
          h1, h2, h3, hc, hp, hc2, hr]
    | error e2 =>
      simp [migrate_user, migrate_user_try, resolve_identity, create_calls,
        h1, h2, h3, hc, hp, hc2]

theorem migrate_user_new_email_creates_witness :
    create_calls (migrate_user env_phone rec_phone).2 =
      [request_kwargs rec_phone "p@x.com",
       { request_kwargs rec_phone "p@x.com" with phone_number := none }] :=
  (migrate_user_new_email_creates env_phone rec_phone "p@x.com" rfl (by decide) rfl).2.2
    errP rfl rfl

theorem delete_users_in_page_spec (env : Env) (l : List AuthUser) (d f : Nat) :
    delete_users_in_page env l d f =
      ((d + l.countP (del_ok env), f + l.countP (fun u => !(del_ok env u))),
       l.map AuthUser.uid) := by
  induction l generalizing d f with
  | nil => simp [delete_users_in_page]
  | cons u rest ih =>
    have hcons1 : (u :: rest).countP (del_ok env) =
        rest.countP (del_ok env) + if del_ok env u then 1 else 0 :=
      List.countP_cons _ _ _
    have hcons2 : (u :: rest).countP (fun w => !(del_ok env w)) =
        rest.countP (fun w => !(del_ok env w)) + if !(del_ok env u) then 1 else 0 :=
      List.countP_cons _ _ _
    cases h : env.delete_user u.uid with
    | ok v =>
      have hd : del_ok env u = true := by simp [del_ok, h]
      simp [delete_users_in_page, h, ih, hcons1, hcons2, hd]
      omega
    | error e =>
      have hd : del_ok env u = false := by simp [del_ok, h]
      simp [delete_users_in_page, h, ih, hcons1, hcons2, hd]
      omega

theorem delete_auth_pages_spec (env : Env) (pages : List (List AuthUser)) (d f : Nat) :
    delete_auth_pages env pages d f =
      ((d + (pages.flatten).countP (del_ok env),
        f + (pages.flatten).countP (fun u => !(del_ok env u))),
       (pages.flatten).map AuthUser.uid) := by
  induction pages generalizing d f with
  | nil => simp [delete_auth_pages, List.flatten]
  | cons page rest ih =>
    simp [delete_auth_pages, delete_users_in_page_spec, ih, List.flatten,
      List.countP_append, List.map_append]
    omega

/-- C8: whenever the cascaded store deletion returns normally, the identity
deleter attempts exactly one deletion for every identity of every page, in
order and regardless of the page structure; per-identity failures only feed
the failed counter and never cut the iteration short; and the returned pair
holds the identity tallies only: it is identical with and without the
cascade, so the store tallies are never merged in. -/
theorem delete_auth_users_spec (env : Env) (fd ff : Nat)
    (h : delete_firestore_users env = Except.ok (fd, ff)) :
    (delete_auth_users env true).2 = (env.auth_pages.flatten).map AuthUser.uid ∧
    (delete_auth_users env true).1 =
      Except.ok ((env.auth_pages.flatten).countP (del_ok env),
                 (env.auth_pages.flatten).countP (fun u => !(del_ok env u))) ∧
    delete_auth_users env false = delete_auth_users env true := by
  simp [delete_auth_users, h, delete_auth_pages_spec]

theorem delete_auth_users_spec_witness :
    ((delete_auth_users env_del true).2 = (env_del.auth_pages.flatten).map AuthUser.uid ∧
     (delete_auth_users env_del true).1 =
       Except.ok ((env_del.auth_pages.flatten).countP (del_ok env_del),
                  (env_del.auth_pages.flatten).countP (fun u => !(del_ok env_del u))) ∧
     delete_auth_users env_del false = delete_auth_users env_del true) ∧
    (delete_auth_users env_del true).2 = ["u1", "u2", "u3"] ∧
    (delete_auth_users env_del true).1 = Except.ok (2, 1) :=
  ⟨delete_auth_users_spec env_del 0 0 rfl, rfl, rfl⟩

theorem lookupF_append_left (k : String) (v : FVal) :
    ∀ (l1 l2 : List (String × FVal)), lookupF k l1 = some v → lookupF k (l1 ++ l2) = some v := by
  intro l1 l2 h
  induction l1 with
  | nil => simp [lookupF] at h
  | cons p rest ih =>
    cases p with
    | mk k1 v1 =>
      by_cases hk : k = k1
      · rw [List.cons_append]
        simp [lookupF, hk] at h ⊢
        exact h
      · rw [List.cons_append]
        simp [lookupF, hk] at h ⊢
        exact ih h

/-- C10: the mapped document's Attributes object always carries all seven
keys in order, and every absent string attribute appears with the null
value rather than having its key dropped; consequently, under the store's
merge-write semantics, the merged document holds null at that key no matter
what the previously stored document held. -/
theorem mapper_keeps_all_keys (user_data : CognitoUser) (u : UserRecord) :
    ((create_firestore_user_data user_data u).Attributes).map Prod.fst = doc_attr_keys ∧
    (∀ k, k ∈ string_attr_keys →
      get_attribute_value user_data.Attributes k = none →
      lookupF k (create_firestore_user_data user_data u).Attributes = some FVal.null ∧
      ∀ old, lookupF k (merge_fields old (create_firestore_user_data user_data u).Attributes) =
        some FVal.null) := by
  refine ⟨rfl, ?_⟩
  intro k hk hnone
  simp only [string_attr_keys] at hk
  fin_cases hk <;>
    refine ⟨by simp [create_firestore_user_data, fire_attributes_fields, lookupF, optStr, hnone],
      fun old => ?_⟩ <;>
    · rw [merge_fields]
      exact lookupF_append_left _ _ _ _
        (by simp [create_firestore_user_data, fire_attributes_fields, lookupF, optStr, hnone])

theorem mapper_keeps_all_keys_witness :
    lookupF "phone_number" (create_firestore_user_data rec0 u1rec).Attributes = some FVal.null ∧
    lookupF "phone_number"
      (merge_fields [("phone_number", FVal.str "old")]
        (create_firestore_user_data rec0 u1rec).Attributes) = some FVal.null := by
  have h := (mapper_keeps_all_keys rec0 u1rec).2 "phone_number" (by decide) rfl
  exact ⟨h.1, h.2 [("phone_number", FVal.str "old")]⟩

end CognitoMigration
